import Mathlib

/- Shallow embedding of the Rust-style value containers of my_cpp_utils:
   `Option<T>` (src/include/rs/option.hpp), `Result<T,E>` and its
   `Result<void,E>` specialization (src/include/rs/result20.hpp), and the
   fatal-reporting facility `call_panic_` (src/src/rs/panic.cpp, C++23
   branch, which is the build documented in test/src/panic.cpp).

   Conventions of the embedding:
   - The containers are pure value types; each member function becomes a
     Lean function on the container value.  A mutating member returns the
     pair (returned entity, post-call state of `*this`).
   - A member that may call the fatal-reporting collaborator returns
     `Except String α`; `Except.error s` models the call `panic(s)`
     (i.e. `call_panic_` invoked with message `s`, which never returns).
   - Move vs copy receiver overloads are semantically identical in a pure
     model, but both bodies are translated (suffix `_const` for the
     const-qualified overload) because the source defines both.
   - Where the C++ invokes a callable and discards its result
     (`std::invoke(f, ...)` as a statement), the embedding writes
     `let _ := f ...` so the translated control flow is unchanged. -/

namespace C163q

variable {T U E : Type}

/- ===== fatal reporting: src/src/rs/panic.cpp (C++23 branch) ===== -/

/- Models `std::source_location`.  `function_name_present` models the
   `location.function_name()` pointer being non-null, which the source
   tests before choosing the diagnostic format. -/
structure SourceLocation where
  file_name : String
  function_name : String
  function_name_present : Bool
  line : Nat
  column : Nat

/- `call_panic_` ends in `abort()`: abnormal termination, no return path
   and no exception. -/
inductive Termination where
  | abort
deriving DecidableEq

/- The externally visible effects of one `call_panic_` call, in order:
   the diagnostic printed to stderr, the text printed via `println`
   (the stack-trace line) and whether it was printed, then termination. -/
structure PanicEffect where
  stderr_out : String
  println_out : String
  trace_printed : Bool
  termination : Termination

/- panic.cpp:18-42 (MY_CXX23 branch).  The global `bool enable_traceback`
   (panic.cpp:15) and the stack trace captured by
   `std::stacktrace::current()` are passed as explicit inputs. -/
def call_panic_ (message : String) (location : SourceLocation)
    (enable_traceback : Bool) (captured_stacktrace : String) : PanicEffect :=
  let diagnostic :=
    if location.function_name_present then
      "panicked at " ++ location.file_name ++ " in function "
        ++ location.function_name ++ ":" ++ toString location.line ++ ":"
        ++ toString location.column ++ ":\n" ++ message ++ "\n"
    else
      "panicked at " ++ location.file_name ++ ":" ++ toString location.line
        ++ ":" ++ toString location.column ++ ":\n" ++ message ++ "\n"
  { stderr_out := diagnostic
    println_out := if enable_traceback then captured_stacktrace ++ "\n" else ""
    trace_printed := enable_traceback
    termination := Termination.abort }

/- `std::format("{}{}{}", msg, sep, tl)` as used by the containers'
   panic helpers. -/
def format3 (msg sep tl : String) : String := msg ++ sep ++ tl

/- ===== Option<T>: src/include/rs/option.hpp ===== -/

/- The state is `std::optional<T> m_data` (option.hpp:865): either
   `std::nullopt` or a contained value. -/
inductive Option (T : Type) where
  | nullopt : Option T
  | some (value : T) : Option T
deriving DecidableEq

/- option.hpp:280, `m_data.has_value()` -/
def Option.is_some : C163q.Option T → Bool
  | .some _ => true
  | .nullopt => false

/- option.hpp:294, `!m_data.has_value()` -/
def Option.is_none : C163q.Option T → Bool
  | .some _ => false
  | .nullopt => true

/- option.hpp:308 `expect(msg)` (non-const).  On empty it calls
   `call_panic_with_TN_uncheck<1>(msg, ": ")` (option.hpp:840), which
   formats `msg ++ ": " ++ "None"` and panics. -/
def Option.expect (m : C163q.Option T) (msg : String) : Except String T :=
  match m with
  | .some v => Except.ok v
  | .nullopt => Except.error (format3 msg ": " "None")

/- option.hpp:314 `expect(msg) const` -/
def Option.expect_const (m : C163q.Option T) (msg : String) : Except String T :=
  match m with
  | .some v => Except.ok v
  | .nullopt => Except.error (format3 msg ": " "None")

/- option.hpp:320 `unwrap()` (non-const), panic message `"" ++ "" ++ "None"` -/
def Option.unwrap (m : C163q.Option T) : Except String T :=
  match m with
  | .some v => Except.ok v
  | .nullopt => Except.error (format3 "" "" "None")

/- option.hpp:326 `unwrap() const` -/
def Option.unwrap_const (m : C163q.Option T) : Except String T :=
  match m with
  | .some v => Except.ok v
  | .nullopt => Except.error (format3 "" "" "None")

/- option.hpp:569 `and_then(Option<U> other) const` -/
def Option.and_then_opt (m : C163q.Option T) (other : C163q.Option U) :
    C163q.Option U :=
  match m with
  | .some _ => other
  | .nullopt => C163q.Option.nullopt

/- option.hpp:580 `and_then(F&& f)` (non-const).  The source body is
   `if (is_some()) std::invoke(f, std::move(*m_data)); return std::nullopt;`
   so the invocation result is discarded and `std::nullopt` is returned on
   every path. -/
def Option.and_then (m : C163q.Option T) (f : T → C163q.Option U) :
    C163q.Option U :=
  match m with
  | .some v =>
    let _ := f v
    C163q.Option.nullopt
  | .nullopt => C163q.Option.nullopt

/- option.hpp:592 `and_then(F&& f) const`, same shape as the non-const one -/
def Option.and_then_const (m : C163q.Option T) (f : T → C163q.Option U) :
    C163q.Option U :=
  match m with
  | .some v =>
    let _ := f v
    C163q.Option.nullopt
  | .nullopt => C163q.Option.nullopt

/- option.hpp:468 `map(U default_value, F&& f)` (non-const).  The source
   body is `if (is_some()) std::invoke(f, std::move(*m_data));
   return default_value;` so `default_value` is returned on every path. -/
def Option.map_default (m : C163q.Option T) (default_value : U) (f : T → U) :
    U :=
  match m with
  | .some v =>
    let _ := f v
    default_value
  | .nullopt => default_value

/- option.hpp:481 `map(U default_value, F&& f) const`, same shape -/
def Option.map_default_const (m : C163q.Option T) (default_value : U)
    (f : T → U) : U :=
  match m with
  | .some v =>
    let _ := f v
    default_value
  | .nullopt => default_value

/- option.hpp:681 `get_or_insert(T value)`: conditionally emplaces, then
   returns `*m_data`.  Result pair: (returned reference target, post state). -/
def Option.get_or_insert (m : C163q.Option T) (value : T) :
    T × C163q.Option T :=
  match m with
  | .nullopt => (value, C163q.Option.some value)
  | .some w => (w, C163q.Option.some w)

/- option.hpp:688 `get_or_insert()`: conditionally emplaces a
   default-constructed `T()` (modelled by `default_t`), then executes
   `return *this;` although the declared return type is `T&`: the returned
   expression is the Option object itself, so the first pair component has
   type `Option T` here, not `T`. -/
def Option.get_or_insert_default (m : C163q.Option T) (default_t : T) :
    C163q.Option T × C163q.Option T :=
  let post :=
    match m with
    | .nullopt => C163q.Option.some default_t
    | .some w => C163q.Option.some w
  (post, post)

/- option.hpp:696 `get_or_insert(F&& f)`: conditionally emplaces `f()`,
   then likewise executes `return *this;` with declared return type `T&`. -/
def Option.get_or_insert_with (m : C163q.Option T) (f : Unit → T) :
    C163q.Option T × C163q.Option T :=
  let post :=
    match m with
    | .nullopt => C163q.Option.some (f ())
    | .some w => C163q.Option.some w
  (post, post)

/- option.hpp:704 `take()`: `Option<T> ret(std::move(m_data));
   m_data.reset(); return ret;`.  Result pair: (returned Option, post
   state of self). -/
def Option.take (m : C163q.Option T) : C163q.Option T × C163q.Option T :=
  (m, C163q.Option.nullopt)

/- ===== Result<T,E>: src/include/rs/result20.hpp ===== -/

/- The state is `std::variant<T, E> m_data` (result20.hpp:1182):
   alternative 0 holds a T (Ok state), alternative 1 holds an E (Err
   state).  Constructor names follow the factory functions `Ok`/`Err`. -/
inductive Result (T E : Type) where
  | Ok (val : T)
  | Err (e : E)
deriving DecidableEq

/- `m_data.index()` -/
def Result.index : Result T E → Nat
  | .Ok _ => 0
  | .Err _ => 1

/- result20.hpp:179, `!m_data.index()` -/
def Result.is_ok : Result T E → Bool
  | .Ok _ => true
  | .Err _ => false

/- result20.hpp:226, `!!m_data.index()` -/
def Result.is_err : Result T E → Bool
  | .Ok _ => false
  | .Err _ => true

/- result20.hpp:105, default constructor `Result() : m_data() {}`:
   `std::variant` default construction value-initializes its first
   alternative, i.e. produces a `T()` (modelled by `default_t`) in
   alternative 0. -/
def Result.default_ctor (default_t : T) : Result T E := Result.Ok default_t

/- result20.hpp:334 `ok()`: converts to `Option<T>`, moving out T and
   discarding E. -/
def Result.ok : Result T E → C163q.Option T
  | .Err _ => C163q.Option.nullopt
  | .Ok v => C163q.Option.some v

/- result20.hpp:356 `err()`: converts to `Option<E>`, moving out E and
   discarding T. -/
def Result.err : Result T E → C163q.Option E
  | .Ok _ => C163q.Option.nullopt
  | .Err e => C163q.Option.some e

/- result20.hpp:728 `unwrap()` (non-const).  On Err it calls
   `call_panic_with_TE_uncheck<1>("", "")` (result20.hpp:1161), which
   formats `"" ++ "" ++ <rendered stored value>` when E is formattable;
   the rendering of E is passed as `render_e`. -/
def Result.unwrap (render_e : E → String) : Result T E → Except String T
  | .Ok v => Except.ok v
  | .Err e => Except.error (format3 "" "" (render_e e))

/- result20.hpp:857 `and_then(Result<U,E> res)` (non-const): on Ok returns
   `res`; on Err rebuilds alternative 1 from the moved own Err payload. -/
def Result.and_then_res (m : Result T E) (res : Result U E) : Result U E :=
  match m with
  | .Ok _ => res
  | .Err e => Result.Err e

/- result20.hpp:866 `and_then(Result<U,E> res) const`: same, copying E. -/
def Result.and_then_res_const (m : Result T E) (res : Result U E) :
    Result U E :=
  match m with
  | .Ok _ => res
  | .Err e => Result.Err e

/- result20.hpp:906 `and_then(F&& op)` (non-const): on Ok returns
   `op(moved T)`; on Err rebuilds alternative 1 from the own Err payload. -/
def Result.and_then (m : Result T E) (op : T → Result U E) : Result U E :=
  match m with
  | .Ok v => op v
  | .Err e => Result.Err e

/- result20.hpp:919 `and_then(F&& op) const` -/
def Result.and_then_const (m : Result T E) (op : T → Result U E) :
    Result U E :=
  match m with
  | .Ok v => op v
  | .Err e => Result.Err e

/- result20.hpp:1613 `operator==`: `lhs.data() == rhs.data()` with
   `std::variant` semantics: true iff both hold the same alternative index
   and the payloads of that alternative compare equal (`eq_t` / `eq_e`
   model `T::operator==` / `E::operator==`). -/
def Result.beq (eq_t : T → T → Bool) (eq_e : E → E → Bool) :
    Result T E → Result T E → Bool
  | .Ok a, .Ok b => eq_t a b
  | .Err a, .Err b => eq_e a b
  | .Ok _, .Err _ => false
  | .Err _, .Ok _ => false

/- result20.hpp:1607 `operator<=>`: `lhs.data() <=> rhs.data()` with
   `std::variant` semantics: differing indices compare as the indices
   (alternative 0 = Ok before alternative 1 = Err), equal indices compare
   the payloads (`cmp_t` / `cmp_e` model the payload `operator<=>`). -/
def Result.three_way (cmp_t : T → T → Ordering) (cmp_e : E → E → Ordering) :
    Result T E → Result T E → Ordering
  | .Ok a, .Ok b => cmp_t a b
  | .Err a, .Err b => cmp_e a b
  | .Ok _, .Err _ => Ordering.lt
  | .Err _, .Ok _ => Ordering.gt

/- ===== Result<void,E> specialization: result20.hpp:1193 ===== -/

/- The state is `std::variant<std::monostate, E> m_data`
   (result20.hpp:1599): alternative 0 is the payload-free Ok state. -/
inductive ResultVoid (E : Type) where
  | Ok : ResultVoid E
  | Err (e : E) : ResultVoid E
deriving DecidableEq

/- result20.hpp:1238 -/
def ResultVoid.is_ok : ResultVoid E → Bool
  | .Ok => true
  | .Err _ => false

/- result20.hpp:1250 -/
def ResultVoid.is_err : ResultVoid E → Bool
  | .Ok => false
  | .Err _ => true

/- result20.hpp:1462 `and_then(Result<U,E> res)` (non-const) -/
def ResultVoid.and_then_res (m : ResultVoid E) (res : Result U E) :
    Result U E :=
  match m with
  | .Ok => res
  | .Err e => Result.Err e

/- result20.hpp:1471 `and_then(Result<U,E> res) const` -/
def ResultVoid.and_then_res_const (m : ResultVoid E) (res : Result U E) :
    Result U E :=
  match m with
  | .Ok => res
  | .Err e => Result.Err e

/- result20.hpp:1483 `and_then(F&& op)` (non-const).  The Ok branch is
   `std::invoke(std::forward<F>(op), std::move(get<0>()))` where `get<0>()`
   is of type void for this specialization (the requires-clause specifies
   a zero-argument call, modelled here as `op ()`).  The Err branch is
   `return Result<U, E>();`: a default-constructed Result, i.e. the Ok
   state holding a value-initialized `U()` (modelled by `default_u`) -- the
   own Err payload is discarded. -/
def ResultVoid.and_then (m : ResultVoid E) (op : Unit → Result U E)
    (default_u : U) : Result U E :=
  match m with
  | .Ok => op ()
  | .Err _ => Result.Ok default_u

/- result20.hpp:1495 `and_then(F&& op) const`: on Ok returns `op()`; on
   Err rebuilds alternative 1 from the copied own Err payload. -/
def ResultVoid.and_then_const (m : ResultVoid E) (op : Unit → Result U E) :
    Result U E :=
  match m with
  | .Ok => op ()
  | .Err e => Result.Err e

end C163q

/- ===================== Claims ===================== -/

namespace C163q

/-- C1: the claim states that a filled `Option` passed through
`and_then(fn)` yields the `Option<U>` produced by `fn` on the contained
value.  The code (option.hpp:580 and :592) invokes `fn` but discards its
result and returns `std::nullopt` on every path, so on the filled input
`Some(0)` with `fn = fun x => Some (x+1)` both receiver forms return the
empty Option instead of `Some 1`.  This theorem evaluates the embedded
code at that failing input. -/
theorem and_then_fn_discards_result :
    C163q.Option.and_then (C163q.Option.some 0)
      (fun x => C163q.Option.some (x + 1)) = (C163q.Option.nullopt : C163q.Option Nat)
    ∧ C163q.Option.and_then_const (C163q.Option.some 0)
      (fun x => C163q.Option.some (x + 1)) = (C163q.Option.nullopt : C163q.Option Nat) :=
  ⟨rfl, rfl⟩

/-- C2: the claim states that `map(default_value, fn)` on a filled
`Option` returns `fn(v)`.  The code (option.hpp:468 and :481) invokes
`fn` but discards its result and returns `default_value` on every path,
so on `Some(1)` with default `0` and `fn = fun x => x + 1` both receiver
forms return `0` instead of `2`.  This theorem evaluates the embedded
code at that failing input. -/
theorem map_default_discards_result :
    C163q.Option.map_default (C163q.Option.some 1) 0 (fun x => x + 1) = 0
    ∧ C163q.Option.map_default_const (C163q.Option.some 1) 0 (fun x => x + 1) = 0 :=
  ⟨rfl, rfl⟩

/-- C3: for `Result<T,E>` in the Err state, every `and_then` form
(ready-made Result or callable, const or not) propagates the Err payload
unchanged and never invokes the callable -- this holds for the four
general-template forms and for the `Result<void,E>` forms except the
non-const callable overload (result20.hpp:1483), whose Err branch returns
a default-constructed (Ok-state) `Result<U,E>` discarding the error: at
the failing input `Err(7)` with `op = fun _ => Err 9` and `U = Nat` it
returns `Ok 0` instead of `Err 7`.  The universally quantified parts also
show the callable is never consulted on Err (the result is the same for
every `op`). -/
theorem result_and_then_err_propagation :
    (∀ (T U E : Type) (e : E) (res : C163q.Result U E)
       (op : T → C163q.Result U E),
      C163q.Result.and_then_res (C163q.Result.Err e : C163q.Result T E) res
        = C163q.Result.Err e
      ∧ C163q.Result.and_then_res_const (C163q.Result.Err e : C163q.Result T E) res
        = C163q.Result.Err e
      ∧ C163q.Result.and_then (C163q.Result.Err e : C163q.Result T E) op
        = C163q.Result.Err e
      ∧ C163q.Result.and_then_const (C163q.Result.Err e : C163q.Result T E) op
        = C163q.Result.Err e)
    ∧ (∀ (U E : Type) (e : E) (res : C163q.Result U E)
         (op : Unit → C163q.Result U E),
      C163q.ResultVoid.and_then_res (C163q.ResultVoid.Err e) res
        = C163q.Result.Err e
      ∧ C163q.ResultVoid.and_then_res_const (C163q.ResultVoid.Err e) res
        = C163q.Result.Err e
      ∧ C163q.ResultVoid.and_then_const (C163q.ResultVoid.Err e) op
        = C163q.Result.Err e)
    ∧ C163q.ResultVoid.and_then (C163q.ResultVoid.Err 7)
        (fun _ => C163q.Result.Err 9) 0 = C163q.Result.Ok (0 : Nat) :=
  ⟨fun _ _ _ _ _ _ => ⟨rfl, rfl, rfl, rfl⟩, fun _ _ _ _ _ => ⟨rfl, rfl, rfl⟩, rfl⟩

/-- C4: `unwrap()` and `expect(msg)` return the contained value when the
`Option` is filled (both receiver overloads), and on an empty `Option`
they do not produce a value but invoke the fatal-reporting collaborator:
`expect` with the diagnostic `msg ++ ": " ++ "None"` and `unwrap` with
just `"None"` (option.hpp:308-330 and the `<1>` branch of
`call_panic_with_TN_uncheck`, option.hpp:840). -/
theorem unwrap_expect_spec : ∀ (T : Type) (v : T) (msg : String),
    C163q.Option.unwrap (C163q.Option.some v) = Except.ok v
    ∧ C163q.Option.unwrap_const (C163q.Option.some v) = Except.ok v
    ∧ C163q.Option.expect (C163q.Option.some v) msg = Except.ok v
    ∧ C163q.Option.expect_const (C163q.Option.some v) msg = Except.ok v
    ∧ C163q.Option.unwrap (C163q.Option.nullopt : C163q.Option T)
        = Except.error ("" ++ "" ++ "None")
    ∧ C163q.Option.unwrap_const (C163q.Option.nullopt : C163q.Option T)
        = Except.error ("" ++ "" ++ "None")
    ∧ C163q.Option.expect (C163q.Option.nullopt : C163q.Option T) msg
        = Except.error (msg ++ ": " ++ "None")
    ∧ C163q.Option.expect_const (C163q.Option.nullopt : C163q.Option T) msg
        = Except.error (msg ++ ": " ++ "None") :=
  fun _ _ _ => ⟨rfl, rfl, rfl, rfl, rfl, rfl, rfl, rfl⟩

/-- C5: the claim states every `get_or_insert` form returns a mutable
reference to the contained value.  `get_or_insert(value)`
(option.hpp:681) does (it returns `*m_data`), but `get_or_insert()`
(option.hpp:688) and `get_or_insert(fn)` (option.hpp:696) execute
`return *this;` although the declared return type is `T&`: the returned
expression is the Option object itself (ill-formed when instantiated),
not the contained value.  This theorem evaluates the embedded code on
empty inputs: the fill behavior is as claimed, but the first component
returned by the two broken forms is the container `Some 0` / `Some 5`
(of type `Option Nat`), where the claim requires the contained `Nat`. -/
theorem get_or_insert_returns_self :
    C163q.Option.get_or_insert (C163q.Option.nullopt : C163q.Option Nat) 3
      = (3, C163q.Option.some 3)
    ∧ C163q.Option.get_or_insert_default (C163q.Option.nullopt : C163q.Option Nat) 0
      = (C163q.Option.some 0, C163q.Option.some 0)
    ∧ C163q.Option.get_or_insert_with (C163q.Option.nullopt : C163q.Option Nat)
        (fun _ => 5) = (C163q.Option.some 5, C163q.Option.some 5) :=
  ⟨rfl, rfl, rfl⟩

/-- C6: `call_panic_` writes to stderr a diagnostic naming the source
file, enclosing function, line and column followed by the message,
prints the captured stack trace if and only if the process-wide
`enable_traceback` flag is set, and then terminates abnormally via
`abort()` (panic.cpp:18-42, C++23 branch), never returning to the
caller. -/
theorem call_panic_spec : ∀ (message : String) (location : SourceLocation)
    (flag : Bool) (trace : String),
    location.function_name_present = true →
    (C163q.call_panic_ message location flag trace).stderr_out
      = "panicked at " ++ location.file_name ++ " in function "
        ++ location.function_name ++ ":" ++ toString location.line ++ ":"
        ++ toString location.column ++ ":\n" ++ message ++ "\n"
    ∧ (C163q.call_panic_ message location flag trace).trace_printed = flag
    ∧ (C163q.call_panic_ message location flag trace).termination
      = Termination.abort := by
  intro message location flag trace h
  refine ⟨?_, rfl, rfl⟩
  simp only [call_panic_, h, if_true]

/-- Witness for C6 at a concrete call site: the hypothesis (a non-null
function name) holds and the conclusion follows by applying the theorem
there. -/
theorem call_panic_spec_witness :
    (SourceLocation.mk "a.cpp" "main" true 3 5).function_name_present = true
    ∧ ((C163q.call_panic_ "boom" (SourceLocation.mk "a.cpp" "main" true 3 5)
          true "trace").stderr_out
        = "panicked at " ++ "a.cpp" ++ " in function " ++ "main" ++ ":"
          ++ toString (3 : Nat) ++ ":" ++ toString (5 : Nat) ++ ":\n"
          ++ "boom" ++ "\n"
      ∧ (C163q.call_panic_ "boom" (SourceLocation.mk "a.cpp" "main" true 3 5)
          true "trace").trace_printed = true
      ∧ (C163q.call_panic_ "boom" (SourceLocation.mk "a.cpp" "main" true 3 5)
          true "trace").termination = Termination.abort) :=
  ⟨rfl, call_panic_spec "boom" (SourceLocation.mk "a.cpp" "main" true 3 5)
    true "trace" rfl⟩

/-- C7: conversion round trip between the containers (result20.hpp:334
and :356): an Ok-state Result converts via `ok()` to a filled `Option`
holding the value (so `ok().unwrap()` recovers it) and via `err()` to an
empty `Option`; an Err-state Result converts via `ok()` to an empty
`Option` and via `err()` to a filled `Option` holding the error. -/
theorem ok_err_roundtrip : ∀ (T E : Type) (v : T) (e : E),
    C163q.Option.unwrap (C163q.Result.ok (C163q.Result.Ok v : C163q.Result T E))
      = Except.ok v
    ∧ C163q.Option.is_none (C163q.Result.ok (C163q.Result.Err e : C163q.Result T E))
      = true
    ∧ C163q.Option.unwrap (C163q.Result.err (C163q.Result.Err e : C163q.Result T E))
      = Except.ok e
    ∧ C163q.Option.is_none (C163q.Result.err (C163q.Result.Ok v : C163q.Result T E))
      = true :=
  fun _ _ _ _ => ⟨rfl, rfl, rfl, rfl⟩

/-- C8: `take()` postcondition (option.hpp:704): after the call, self is
empty; if self held `v` the returned `Option` is filled with `v` (so its
`unwrap()` yields `v`); if self was empty the returned `Option` is empty
and self is unchanged (still empty). -/
theorem take_postcondition : ∀ (T : Type) (v : T),
    (C163q.Option.take (C163q.Option.some v)).2 = C163q.Option.nullopt
    ∧ (C163q.Option.take (C163q.Option.some v)).1 = C163q.Option.some v
    ∧ C163q.Option.unwrap ((C163q.Option.take (C163q.Option.some v)).1)
      = Except.ok v
    ∧ C163q.Option.take (C163q.Option.nullopt : C163q.Option T)
      = (C163q.Option.nullopt, C163q.Option.nullopt) :=
  fun _ _ => ⟨rfl, rfl, rfl, rfl⟩

/-- C9: `operator==` on two Results is the payload comparison when the
active alternative indices match and false across different alternatives,
and `operator<=>` orders by alternative index first (Ok before Err) and
by the payload of the common alternative otherwise (result20.hpp:1603-1615,
delegating to `std::variant`). -/
theorem result_compare_spec : ∀ (T E : Type) (eq_t : T → T → Bool)
    (eq_e : E → E → Bool) (cmp_t : T → T → Ordering)
    (cmp_e : E → E → Ordering) (a b : T) (c d : E),
    C163q.Result.beq eq_t eq_e (C163q.Result.Ok a) (C163q.Result.Ok b) = eq_t a b
    ∧ C163q.Result.beq eq_t eq_e (C163q.Result.Err c) (C163q.Result.Err d) = eq_e c d
    ∧ C163q.Result.beq eq_t eq_e (C163q.Result.Ok a) (C163q.Result.Err d) = false
    ∧ C163q.Result.beq eq_t eq_e (C163q.Result.Err c) (C163q.Result.Ok b) = false
    ∧ C163q.Result.three_way cmp_t cmp_e (C163q.Result.Ok a) (C163q.Result.Ok b)
      = cmp_t a b
    ∧ C163q.Result.three_way cmp_t cmp_e (C163q.Result.Err c) (C163q.Result.Err d)
      = cmp_e c d
    ∧ C163q.Result.three_way cmp_t cmp_e (C163q.Result.Ok a) (C163q.Result.Err d)
      = Ordering.lt
    ∧ C163q.Result.three_way cmp_t cmp_e (C163q.Result.Err c) (C163q.Result.Ok b)
      = Ordering.gt :=
  fun _ _ _ _ _ _ _ _ _ _ => ⟨rfl, rfl, rfl, rfl, rfl, rfl, rfl, rfl⟩

/-- C10: a default-constructed `Result<T,E>` (result20.hpp:105) holds a
value-initialized `T` in alternative 0, so `is_ok()` is true and
`unwrap()` returns that `T()` value. -/
theorem default_ctor_is_ok : ∀ (T E : Type) (default_t : T)
    (render_e : E → String),
    C163q.Result.is_ok (C163q.Result.default_ctor default_t : C163q.Result T E)
      = true
    ∧ C163q.Result.unwrap render_e
        (C163q.Result.default_ctor default_t : C163q.Result T E)
      = Except.ok default_t :=
  fun _ _ _ _ => ⟨rfl, rfl⟩

end C163q
